import Mathlib

/-!
Shallow embedding of the Proximus demo web service (two Express variants:
the single-file app `part_000` and the slimmer `server.js`).

Modelled parts:
- the in-memory per-IP lockout tracker (`checkLockout` / `registerAttempt`)
  and the `/api/login` route that composes them;
- the `/api/sms` (resp. `/api/data`) filtered read with its `limit` handling,
  including JavaScript `parseInt` / `|| 100` / `Math.min` / `slice` semantics;
- the `/api/mcp/query` bridge, both the remote-forward path (the upstream
  response and transport outcome are parameters) and the local mock
  aggregation over the dataset;
- the `requireAuth` guard and the guarded routes;
- the SSE stream connection's interval timer as a discrete event trace
  (ticks and the transport-close event processed sequentially, as the
  Node.js event loop does).

Times are milliseconds as natural numbers (`Date.now()`); JavaScript number
division in the KPI aggregation is modelled exactly over `ℚ`.
-/

namespace Proximus

/-! ## Lockout tracker (part_000 lines 45-74) -/

/-- `MAX_ATTEMPTS = 3`. -/
def MAX_ATTEMPTS : Nat := 3

/-- `LOCK_MINUTES = 10`. -/
def LOCK_MINUTES : Nat := 10

/-- One entry of the `lockouts` map: `{ attempts, until }`.
`untilMs = 0` is the initial falsy value of the JS `until` field. -/
structure LockEntry where
  attempts : Nat
  untilMs : Nat
deriving DecidableEq, Repr

/-- The `lockouts` map, `ip -> { attempts, until }`, as an association list. -/
def LockMap := List (String × LockEntry)

instance : DecidableEq LockMap := by
  unfold LockMap
  infer_instance

/-- `lockouts.get(ip)`. -/
def LockMap.get (m : LockMap) (ip : String) : Option LockEntry :=
  match m with
  | [] => none
  | (k, e) :: rest => if k = ip then some e else LockMap.get rest ip

/-- `lockouts.delete(ip)`. -/
def LockMap.del (m : LockMap) (ip : String) : LockMap :=
  match m with
  | [] => []
  | (k, e) :: rest => if k = ip then LockMap.del rest ip else (k, e) :: LockMap.del rest ip

/-- `lockouts.set(ip, entry)`. -/
def LockMap.set (m : LockMap) (ip : String) (e : LockEntry) : LockMap :=
  match m with
  | [] => [(ip, e)]
  | (k, e0) :: rest => if k = ip then (ip, e) :: LockMap.del rest ip
                       else (k, e0) :: LockMap.set rest ip e

/-- Result shape of `checkLockout`: `{ locked }` or `{ locked, minutesLeft }`. -/
structure LockStatus where
  locked : Bool
  minutesLeft : Nat
deriving DecidableEq, Repr

/-- `checkLockout(ip)` (part_000 lines 50-60).  Returns the status and the
possibly-updated map: an existing entry that is not currently locked
(`entry.until` falsy, or not in the future) is deleted ("expired lock"). -/
def checkLockout (m : LockMap) (ip : String) (now : Nat) : LockStatus × LockMap :=
  match m.get ip with
  | none => (⟨false, 0⟩, m)
  | some e =>
    if e.untilMs ≠ 0 ∧ now < e.untilMs then
      (⟨true, (e.untilMs - now + 59999) / 60000⟩, m)
    else
      (⟨false, 0⟩, m.del ip)

/-- `registerAttempt(ip, success)` (part_000 lines 62-74). -/
def registerAttempt (m : LockMap) (ip : String) (success : Bool) (now : Nat) : LockMap :=
  if success then m.del ip
  else
    let e := (m.get ip).getD ⟨0, 0⟩
    let e := { e with attempts := e.attempts + 1 }
    if MAX_ATTEMPTS ≤ e.attempts then
      m.set ip ⟨0, now + LOCK_MINUTES * 60000⟩
    else
      m.set ip e

/-- Response of the `/api/login` route, with the HTTP status and whether the
credential comparison (line 118) was reached. -/
structure LoginResponse where
  status : Nat
  credentialsEvaluated : Bool
  minutesLeft : Nat
deriving DecidableEq, Repr

/-- `POST /api/login` (part_000 lines 112-124): lockout check, then
credential comparison against `proximus` / `proximus123`, then
`registerAttempt`. -/
def loginRoute (m : LockMap) (ip username password : String) (now : Nat) :
    LoginResponse × LockMap :=
  let (lock, m1) := checkLockout m ip now
  if lock.locked then
    (⟨429, false, lock.minutesLeft⟩, m1)
  else
    let ok := username = "proximus" ∧ password = "proximus123"
    let m2 := registerAttempt m1 ip (decide ok) now
    if ok then (⟨200, true, 0⟩, m2) else (⟨401, true, 0⟩, m2)

/-- One observed login attempt: source ip, submitted credentials, time. -/
structure LoginAttempt where
  ip : String
  username : String
  password : String
  now : Nat
deriving DecidableEq, Repr

/-- Run a sequence of `/api/login` requests, threading the lockout map. -/
def runLogins (m : LockMap) : List LoginAttempt → LockMap
  | [] => m
  | a :: rest => runLogins (loginRoute m a.ip a.username a.password a.now).2 rest

/-! ## Dataset (part_000 lines 82-106, server.js lines 51-73) -/

/-- One record of the dummy SMS dataset. -/
structure SmsRecord where
  id : Nat
  country : String
  carrier : String
  status : String
  latency_ms : Nat
  message : String
  timestamp : Nat
deriving DecidableEq, Repr

def statuses : List String := ["DELIVERED", "FAILED", "BLOCKED", "PENDING"]

/-- What the dataset generator guarantees of every record it produces:
`status` drawn from `statuses`, and `latency_ms = Math.floor(random*3000)+100`,
hence an integer in `[100, 3100)`. -/
def GeneratedRecord (r : SmsRecord) : Prop :=
  r.status ∈ statuses ∧ 100 ≤ r.latency_ms ∧ r.latency_ms < 3100

instance (r : SmsRecord) : Decidable (GeneratedRecord r) := by
  unfold GeneratedRecord
  infer_instance

/-! ## `/api/sms` and `/api/data` (part_000 lines 135-142, server.js 76-91) -/

/-- JavaScript `parseInt(s, 10)`: skip leading whitespace, take an optional
sign and then the longest prefix of decimal digits; `NaN` (here `none`) when
no digit follows. -/
def parseIntJS (s : String) : Option Int :=
  let cs := s.toList.dropWhile (fun c => c = ' ' ∨ c = '\t' ∨ c = '\n' ∨ c = '\r')
  let signAndRest : Bool × List Char :=
    match cs with
    | '-' :: rest => (true, rest)
    | '+' :: rest => (false, rest)
    | _ => (false, cs)
  let ds := signAndRest.2.takeWhile Char.isDigit
  if ds.isEmpty then none
  else
    let n : Nat := ds.foldl (fun acc c => acc * 10 + (c.toNat - '0'.toNat)) 0
    some (if signAndRest.1 then -(n : Int) else (n : Int))

/-- `parseInt(limit, 10) || 100`: both `NaN` and `0` are falsy in JS, so an
absent, non-numeric or zero `limit` yields the default 100. -/
def limitOrDefault (limit : Option String) : Int :=
  match limit with
  | none => 100
  | some s =>
    match parseIntJS s with
    | none => 100
    | some n => if n = 0 then 100 else n

/-- `Math.min(parseInt(limit,10) || 100, maxLim)`. -/
def effectiveLimit (limit : Option String) (maxLim : Int) : Int :=
  min (limitOrDefault limit) maxLim

/-- `arr.slice(0, e)` of JavaScript: a negative end index counts back from
the end of the array. -/
def jsSliceTo {α : Type} (l : List α) (e : Int) : List α :=
  l.take (if e < 0 then ((l.length : Int) + e).toNat else e.toNat)

/-- `String.prototype.toUpperCase()` on one character, for the ASCII range
the country/status codes live in. -/
def jsToUpperChar (c : Char) : Char :=
  if 'a' ≤ c ∧ c ≤ 'z' then Char.ofNat (c.toNat - 32) else c

/-- `String(x).toUpperCase()`. -/
def jsToUpper (s : String) : String :=
  ⟨s.data.map jsToUpperChar⟩

/-- The country/status filtering shared by `/api/sms`, `/api/data` and the
mock bridge branch: keep records whose stored field equals the uppercased
query value. -/
def filterRecords (data : List SmsRecord) (country status : Option String) :
    List SmsRecord :=
  let out := match country with
    | some c => data.filter (fun r => r.country == jsToUpper c)
    | none => data
  match status with
  | some s => out.filter (fun r => r.status == jsToUpper s)
  | none => out

/-- `GET /api/sms` (part_000 lines 135-142): filter, then
`slice(0, Math.min(parseInt(limit,10) || 100, 500))`. -/
def apiSms (data : List SmsRecord) (country status limit : Option String) :
    List SmsRecord :=
  jsSliceTo (filterRecords data country status) (effectiveLimit limit 500)

/-- `GET /api/data` (server.js lines 76-91): identical but clamped at 1000. -/
def apiData (data : List SmsRecord) (country status limit : Option String) :
    List SmsRecord :=
  jsSliceTo (filterRecords data country status) (effectiveLimit limit 1000)

/-! ## Query bridge: local mock branch (part_000 lines 179-193) -/

/-- The `{total, delivered, failed, blocked, avgLatency}` aggregate.
`avgLatency` is `reduce(+ latency_ms, 0) / Math.max(1, total)` — JS number
division, modelled exactly over `ℚ`. -/
structure Kpis where
  total : Nat
  delivered : Nat
  failed : Nat
  blocked : Nat
  avgLatency : ℚ
deriving DecidableEq, Repr

def computeKpis (out : List SmsRecord) : Kpis :=
  { total := out.length
    delivered := (out.filter (fun r => r.status == "DELIVERED")).length
    failed := (out.filter (fun r => r.status == "FAILED")).length
    blocked := (out.filter (fun r => r.status == "BLOCKED")).length
    avgLatency := (((out.map (fun r => r.latency_ms)).sum : Nat) : ℚ)
      / ((max 1 out.length : Nat) : ℚ) }

inductive MockData where
  | kpis (k : Kpis)
  | rows (rs : List SmsRecord)
deriving DecidableEq, Repr

structure MockResponse where
  source : String
  data : MockData
deriving DecidableEq, Repr

/-- The local (no `MCP_URL`) branch of `POST /api/mcp/query`
(part_000 lines 179-193). -/
def mcpQueryLocal (data : List SmsRecord)
    (resource fCountry fStatus : Option String) : MockResponse :=
  let out := filterRecords data fCountry fStatus
  if resource = some "kpis" then ⟨"mock-mcp", .kpis (computeKpis out)⟩
  else ⟨"mock-mcp", .rows (jsSliceTo out 200)⟩

/-! ## Query bridge: remote path (part_000 lines 165-199, server.js 94-123) -/

/-- The outgoing bridge request (part_000 lines 169-176): the body is the
forwarded payload, and the Authorization header is `Bearer <MCP_API_KEY>`
exactly when the key is configured. -/
structure BridgeRequest (β : Type) where
  url : String
  authorization : Option String
  body : β
deriving DecidableEq, Repr

def buildBridgeRequest {β : Type} (mcpUrl : String) (apiKey : Option String)
    (body : β) : BridgeRequest β :=
  ⟨mcpUrl, apiKey.map (fun k => "Bearer " ++ k), body⟩

/-- The upstream response as the part_000 handler can observe it: the
ok-flag/status of the HTTP layer and the JSON value of the body (`none` when
`resp.json()` throws on a non-JSON body). -/
structure UpstreamResponse (α : Type) where
  ok : Bool
  status : Nat
  jsonBody : Option α
deriving DecidableEq, Repr

/-- The outcome of the `fetch` transport: a response, or a thrown exception
with its message. -/
inductive FetchOutcome (α : Type) where
  | response (r : UpstreamResponse α)
  | thrown (msg : String)
deriving DecidableEq, Repr

/-- Result of the bridge route: `res.json({source, data})` with 200, or
`res.status(s).json({error, details})`. -/
inductive BridgeResult (α : Type) where
  | ok (source : String) (data : α)
  | err (status : Nat) (error details : String)
deriving DecidableEq, Repr

/-- The remote path of part_000's `POST /api/mcp/query` (lines 168-178 and
the catch at 195-198): `await resp.json()` then
`res.json({source:'proximus-mcp', data})`.  Any thrown error — transport or
JSON parsing — lands in the catch block as 502.  The upstream status is
never consulted.  `parseErrMsg` is the message of the exception that
`resp.json()` throws on a non-JSON body. -/
def mcpQueryRemote {α : Type} (outcome : FetchOutcome α) (parseErrMsg : String) :
    BridgeResult α :=
  match outcome with
  | .thrown msg => .err 502 "MCP bridge failed" msg
  | .response r =>
    match r.jsonBody with
    | none => .err 502 "MCP bridge failed" parseErrMsg
    | some d => .ok "proximus-mcp" d

/-- Upstream response as the server.js handler observes it: it additionally
reads the content type and can fall back to the raw text body. -/
structure UpstreamResponse2 (α : Type) where
  ok : Bool
  status : Nat
  contentTypeJson : Bool
  jsonBody : Option α
  textBody : String
deriving DecidableEq, Repr

inductive FetchOutcome2 (α : Type) where
  | response (r : UpstreamResponse2 α)
  | thrown (msg : String)
deriving DecidableEq, Repr

/-- server.js success responses carry no `source` wrapper: `res.json(data)`
directly, or `{raw: text}` for a non-JSON body. -/
inductive BridgeResult2 (α : Type) where
  | okJson (data : α)
  | okRaw (text : String)
  | err (status : Nat) (error details : String)
deriving DecidableEq, Repr

/-- server.js's `POST /api/mcp/query` remote handler (lines 98-122): unlike
part_000 it checks `resp.ok` and turns a non-success upstream status into a
502 whose details stringify the upstream body.  `stringifyJson` models
`JSON.stringify(await resp.json().catch(()=>({})))`, `stringifyText` models
`JSON.stringify(await resp.text())`. -/
def mcpQueryRemoteV2 {α : Type} (outcome : FetchOutcome2 α)
    (stringifyJson : Option α → String) (stringifyText : String → String)
    (parseErrMsg : String) : BridgeResult2 α :=
  match outcome with
  | .thrown msg => .err 502 "MCP bridge failed" msg
  | .response r =>
    if r.ok = false then
      .err 502 "MCP bridge failed"
        (if r.contentTypeJson then stringifyJson r.jsonBody else stringifyText r.textBody)
    else if r.contentTypeJson then
      match r.jsonBody with
      | some d => .okJson d
      | none => .err 502 "MCP bridge failed" parseErrMsg
    else .okRaw r.textBody

/-! ## `requireAuth` guard and the protected routes (part_000 lines 77-80) -/

/-- `req.session.user`. -/
structure SessionUser where
  name : String
deriving DecidableEq, Repr

/-- Observable business-logic effects of a protected route's handler body. -/
inductive Effect where
  | datasetRead
  | streamOpened
  | bridgeCalled
deriving DecidableEq, Repr

/-- An HTTP response paired with the effects the handler performed. -/
structure Handled (α : Type) where
  status : Nat
  body : Option α
  error : Option String
  effects : List Effect
deriving DecidableEq, Repr

/-- `requireAuth` (part_000 lines 77-80, server.js 46-49): without
`req.session.user` it answers 401 `{error:'Unauthorized'}` and never calls
`next()`, so the guarded handler contributes nothing. -/
def requireAuth {α : Type} (sess : Option SessionUser)
    (handler : SessionUser → Handled α) : Handled α :=
  match sess with
  | some u => handler u
  | none => ⟨401, none, some "Unauthorized", []⟩

/-- `GET /api/sms` behind the guard. -/
def apiSmsRoute (sess : Option SessionUser) (data : List SmsRecord)
    (country status limit : Option String) : Handled (List SmsRecord) :=
  requireAuth sess
    (fun _ => ⟨200, some (apiSms data country status limit), none, [.datasetRead]⟩)

/-- `GET /api/sms/stream` behind the guard: entering the handler opens the
stream and schedules its interval timer. -/
def apiSmsStreamRoute (sess : Option SessionUser) : Handled Unit :=
  requireAuth sess (fun _ => ⟨200, some (), none, [.streamOpened]⟩)

/-- `POST /api/mcp/query` behind the guard (local branch shown; the effect
records that the bridge/mock logic ran at all). -/
def mcpQueryRoute (sess : Option SessionUser) (data : List SmsRecord)
    (resource fCountry fStatus : Option String) : Handled MockResponse :=
  requireAuth sess
    (fun _ => ⟨200, some (mcpQueryLocal data resource fCountry fStatus), none, [.bridgeCalled]⟩)

/-! ## SSE stream connection (part_000 lines 144-157) -/

/-- State of one stream connection: whether its `setInterval` timer is still
registered.  Opening the route registers exactly one timer;
`req.on('close', () => clearInterval(timer))` clears it. -/
structure StreamConn where
  timerActive : Bool
deriving DecidableEq, Repr

/-- The connection state right after `GET /api/sms/stream` sets up its
`setInterval(send, 1500)`. -/
def openStream : StreamConn := ⟨true⟩

/-- Events the Node event loop processes sequentially for one connection:
an interval tick, or the transport's close event. -/
inductive StreamEvent where
  | tick
  | closed
deriving DecidableEq, Repr

/-- One event-loop step.  A tick of a registered timer writes one frame
(`send`); a tick of a cleared timer writes nothing (the timer no longer
fires); the close event runs `clearInterval` and writes nothing. -/
def streamStep (s : StreamConn) : StreamEvent → StreamConn × Nat
  | .tick => (s, if s.timerActive then 1 else 0)
  | .closed => (⟨false⟩, 0)

/-- Frames written across a whole event sequence. -/
def streamRun (s : StreamConn) : List StreamEvent → StreamConn × Nat
  | [] => (s, 0)
  | e :: rest =>
    let p := streamStep s e
    let q := streamRun p.1 rest
    (q.1, p.2 + q.2)

/-! ### Map lemmas -/

theorem LockMap.get_del (m : LockMap) (ip ip' : String) :
    (m.del ip).get ip' = if ip = ip' then none else m.get ip' := by
  induction m with
  | nil => simp [LockMap.del, LockMap.get]
  | cons kv rest ih =>
    obtain ⟨k, e⟩ := kv
    by_cases hk : k = ip <;> by_cases h' : k = ip'
    · simp_all [LockMap.del, LockMap.get]
    · have hne : ¬ ip = ip' := fun hh => h' (hk.trans hh)
      simp_all [LockMap.del, LockMap.get]
    · have hne : ¬ ip = ip' := fun hh => hk (h'.trans hh.symm)
      simp_all [LockMap.del, LockMap.get]
    · simp_all [LockMap.del, LockMap.get]

theorem LockMap.get_set (m : LockMap) (ip ip' : String) (e : LockEntry) :
    (m.set ip e).get ip' = if ip = ip' then some e else m.get ip' := by
  induction m with
  | nil => simp [LockMap.set, LockMap.get]
  | cons kv rest ih =>
    obtain ⟨k, e0⟩ := kv
    by_cases hk : k = ip <;> by_cases h' : k = ip'
    · simp_all [LockMap.set, LockMap.get, LockMap.get_del]
    · have hne : ¬ ip = ip' := fun hh => h' (hk.trans hh)
      simp_all [LockMap.set, LockMap.get, LockMap.get_del]
    · have hne : ¬ ip = ip' := fun hh => hk (h'.trans hh.symm)
      simp_all [LockMap.set, LockMap.get, LockMap.get_del]
    · simp_all [LockMap.set, LockMap.get, LockMap.get_del]

/-! ### Behaviour of `checkLockout` / `registerAttempt` / the login route -/

theorem checkLockout_get_none {m : LockMap} {ip : String} (now : Nat)
    (h : m.get ip = none) : checkLockout m ip now = (⟨false, 0⟩, m) := by
  simp [checkLockout, h]

/-- An entry whose `until` is not in the future is reported unlocked and
deleted — including an accumulating entry whose `until` is still `0`. -/
theorem checkLockout_expired {m : LockMap} {ip : String} {e : LockEntry} {now : Nat}
    (h : m.get ip = some e) (h2 : e.untilMs ≤ now) :
    checkLockout m ip now = (⟨false, 0⟩, m.del ip) := by
  simp only [checkLockout, h]
  rw [if_neg]
  rintro ⟨-, hlt⟩
  omega

theorem checkLockout_locked {m : LockMap} {ip : String} {e : LockEntry} {now : Nat}
    (h : m.get ip = some e) (h1 : e.untilMs ≠ 0) (h2 : now < e.untilMs) :
    checkLockout m ip now = (⟨true, (e.untilMs - now + 59999) / 60000⟩, m) := by
  simp [checkLockout, h, h1, h2]

theorem registerAttempt_success (m : LockMap) (ip : String) (now : Nat) :
    registerAttempt m ip true now = m.del ip := rfl

theorem registerAttempt_fail_fresh {m : LockMap} {ip : String} (now : Nat)
    (h : m.get ip = none) :
    registerAttempt m ip false now = m.set ip ⟨1, 0⟩ := by
  simp [registerAttempt, h, MAX_ATTEMPTS]

/-- Invariant of every lockout map reachable through `/api/login` requests:
each stored entry has `attempts ≤ 1` and `until = 0` (the counter is wiped by
`checkLockout` on the next request before `registerAttempt` can grow it). -/
def RouteInv (m : LockMap) : Prop :=
  ∀ ip e, m.get ip = some e → e.attempts ≤ 1 ∧ e.untilMs = 0

theorem routeInv_nil : RouteInv [] := by
  intro ip e h
  simp [LockMap.get] at h

theorem RouteInv.checkLockout_not_locked {m : LockMap} (h : RouteInv m)
    (ip : String) (now : Nat) : (checkLockout m ip now).1.locked = false := by
  cases hget : m.get ip with
  | none => rw [checkLockout_get_none now hget]
  | some e =>
    have he := h ip e hget
    rw [checkLockout_expired hget (by omega)]

theorem RouteInv.checkLockout_get {m : LockMap} (h : RouteInv m)
    (ip : String) (now : Nat) : ((checkLockout m ip now).2).get ip = none := by
  cases hget : m.get ip with
  | none => rw [checkLockout_get_none now hget]; exact hget
  | some e =>
    have he := h ip e hget
    rw [checkLockout_expired hget (by omega)]
    simp [LockMap.get_del]

theorem RouteInv.del {m : LockMap} (h : RouteInv m) (ip : String) :
    RouteInv (m.del ip) := by
  intro ip' e hg
  rw [LockMap.get_del] at hg
  by_cases hip : ip = ip'
  · simp [hip] at hg
  · rw [if_neg hip] at hg
    exact h ip' e hg

theorem RouteInv.set_one {m : LockMap} (h : RouteInv m) (ip : String) :
    RouteInv (m.set ip ⟨1, 0⟩) := by
  intro ip' e hg
  rw [LockMap.get_set] at hg
  by_cases hip : ip = ip'
  · rw [if_pos hip] at hg
    cases hg
    exact ⟨le_refl 1, rfl⟩
  · rw [if_neg hip] at hg
    exact h ip' e hg

/-- The updated map produced by `/api/login`, in terms of the two tracker
functions. -/
theorem loginRoute_snd (m : LockMap) (ip u p : String) (now : Nat) :
    (loginRoute m ip u p now).2 =
      if (checkLockout m ip now).1.locked then (checkLockout m ip now).2
      else registerAttempt (checkLockout m ip now).2 ip
             (decide (u = "proximus" ∧ p = "proximus123")) now := by
  unfold loginRoute
  rcases checkLockout m ip now with ⟨lock, m1⟩
  by_cases hl : lock.locked <;> by_cases hok : u = "proximus" ∧ p = "proximus123" <;>
    simp [hl, hok]

/-- The response produced by `/api/login`. -/
theorem loginRoute_fst (m : LockMap) (ip u p : String) (now : Nat) :
    (loginRoute m ip u p now).1 =
      if (checkLockout m ip now).1.locked then
        ⟨429, false, (checkLockout m ip now).1.minutesLeft⟩
      else if u = "proximus" ∧ p = "proximus123" then ⟨200, true, 0⟩
      else ⟨401, true, 0⟩ := by
  unfold loginRoute
  rcases checkLockout m ip now with ⟨lock, m1⟩
  by_cases hl : lock.locked <;> by_cases hok : u = "proximus" ∧ p = "proximus123" <;>
    simp [hl, hok]

/-- `/api/login` preserves the reachable-map invariant. -/
theorem RouteInv.login {m : LockMap} (h : RouteInv m) (ip u p : String) (now : Nat) :
    RouteInv (loginRoute m ip u p now).2 := by
  have hnl := h.checkLockout_not_locked ip now
  have hget := h.checkLockout_get ip now
  have hinv1 : RouteInv (checkLockout m ip now).2 := by
    cases hg : m.get ip with
    | none => rw [checkLockout_get_none now hg]; exact h
    | some e =>
      have he := h ip e hg
      rw [checkLockout_expired hg (by omega)]
      exact h.del ip
  rw [loginRoute_snd, hnl]
  simp only [Bool.false_eq_true, if_false]
  by_cases hok : u = "proximus" ∧ p = "proximus123"
  · simp only [decide_eq_true hok, registerAttempt_success]
    exact hinv1.del ip
  · simp only [decide_eq_false hok, registerAttempt_fail_fresh now hget]
    exact hinv1.set_one ip

theorem routeInv_runLogins (m : LockMap) (h : RouteInv m) (l : List LoginAttempt) :
    RouteInv (runLogins m l) := by
  induction l generalizing m with
  | nil => exact h
  | cons a rest ih => exact ih _ (h.login a.ip a.username a.password a.now)

theorem runLogins_append (m : LockMap) (l1 l2 : List LoginAttempt) :
    runLogins m (l1 ++ l2) = runLogins (runLogins m l1) l2 := by
  induction l1 generalizing m with
  | nil => rfl
  | cons a rest ih => simp [runLogins, ih]

/-- A login attempt that passes the lockout check and fails the credential
comparison: 401, one failed attempt registered. -/
theorem loginRoute_fail (m : LockMap) (ip u p : String) (now : Nat)
    (hnl : (checkLockout m ip now).1.locked = false)
    (hbad : ¬ (u = "proximus" ∧ p = "proximus123")) :
    loginRoute m ip u p now =
      (⟨401, true, 0⟩, registerAttempt (checkLockout m ip now).2 ip false now) := by
  unfold loginRoute
  cases hc : checkLockout m ip now with
  | mk lock m1 =>
    rw [hc] at hnl
    have hnl' : lock.locked = false := hnl
    simp [hnl', hbad, decide_eq_false hbad]

/-- A login attempt that passes the lockout check with correct credentials:
200, entry removed. -/
theorem loginRoute_success (m : LockMap) (ip : String) (now : Nat)
    (hnl : (checkLockout m ip now).1.locked = false) :
    loginRoute m ip "proximus" "proximus123" now =
      (⟨200, true, 0⟩, ((checkLockout m ip now).2).del ip) := by
  unfold loginRoute
  cases hc : checkLockout m ip now with
  | mk lock m1 =>
    rw [hc] at hnl
    have hnl' : lock.locked = false := hnl
    simp [hnl', registerAttempt_success]

/-! ### Stream trace lemmas -/

theorem streamRun_append (s : StreamConn) (l1 l2 : List StreamEvent) :
    streamRun s (l1 ++ l2) =
      ((streamRun (streamRun s l1).1 l2).1,
       (streamRun s l1).2 + (streamRun (streamRun s l1).1 l2).2) := by
  induction l1 generalizing s with
  | nil => simp [streamRun]
  | cons e rest ih =>
    simp [streamRun, ih, Nat.add_assoc]

theorem streamRun_inactive (l : List StreamEvent) :
    streamRun ⟨false⟩ l = (⟨false⟩, 0) := by
  induction l with
  | nil => rfl
  | cons e rest ih =>
    cases e <;> simp [streamRun, streamStep, ih]

/-! ### List arithmetic lemmas -/

theorem list_sum_le_mul (l : List Nat) (b : Nat) (h : ∀ x ∈ l, x ≤ b) :
    l.sum ≤ b * l.length := by
  induction l with
  | nil => simp
  | cons x xs ih =>
    have hx := h x (List.mem_cons_self x xs)
    have hxs := ih (fun y hy => h y (List.mem_cons_of_mem x hy))
    simp only [List.sum_cons, List.length_cons]
    have hb : b * (xs.length + 1) = b * xs.length + b := by ring
    omega

theorem list_mul_le_sum (l : List Nat) (a : Nat) (h : ∀ x ∈ l, a ≤ x) :
    a * l.length ≤ l.sum := by
  induction l with
  | nil => simp
  | cons x xs ih =>
    have hx := h x (List.mem_cons_self x xs)
    have hxs := ih (fun y hy => h y (List.mem_cons_of_mem x hy))
    simp only [List.sum_cons, List.length_cons]
    have ha : a * (xs.length + 1) = a * xs.length + a := by ring
    omega

theorem filter_triple_length_le {α : Type} (l : List α) (p q w : α → Bool)
    (hpq : ∀ x, p x = true → q x = true → False)
    (hpw : ∀ x, p x = true → w x = true → False)
    (hqw : ∀ x, q x = true → w x = true → False) :
    (l.filter p).length + (l.filter q).length + (l.filter w).length ≤ l.length := by
  induction l with
  | nil => simp
  | cons x xs ih =>
    simp only [List.filter_cons, List.length_cons]
    by_cases h1 : p x = true
    · by_cases h2 : q x = true
      · exact (hpq x h1 h2).elim
      · by_cases h3 : w x = true
        · exact (hpw x h1 h3).elim
        · simp [h1, h2, h3]
          omega
    · by_cases h2 : q x = true
      · by_cases h3 : w x = true
        · exact (hqw x h2 h3).elim
        · simp [h1, h2, h3]
          omega
      · by_cases h3 : w x = true
        · simp [h1, h2, h3]
          omega
        · simp [h1, h2, h3]
          omega

/-! ## Claim theorems -/

/-- C1: the claimed 3-strikes behaviour does not hold — it is a bug in the
code (the header comment promises "3 strikes lockout per IP for 10 minutes",
and `registerAttempt` plainly implements accumulation, but `checkLockout`
deletes every entry whose `until` is not in the future — including the
accumulating entries with `until = 0` — so each `/api/login` request wipes
the counter before `registerAttempt` runs).  Formally: (1) for every
sequence of `/api/login` requests starting from the empty map, every
identity is reported not locked at every time, so the lockout can never
fire; (2) at the concrete failing input — three consecutive failed attempts
from ip "1.2.3.4" at times 0,1,2 ms — the fourth request at time 3 with
correct credentials is answered 200 with the credentials evaluated, not
rejected 429; (3) the accumulation the claim describes is exactly what
`registerAttempt` alone would do: three direct failed `registerAttempt`
calls do produce a locked entry `{attempts: 0, until: now+600000}`. -/
theorem C1_lockout_never_triggers :
    (∀ (l : List LoginAttempt) (ip : String) (now : Nat),
        (checkLockout (runLogins [] l) ip now).1.locked = false) ∧
    (loginRoute (runLogins []
        [⟨"1.2.3.4", "proximus", "wrong", 0⟩,
         ⟨"1.2.3.4", "proximus", "wrong", 1⟩,
         ⟨"1.2.3.4", "proximus", "wrong", 2⟩])
        "1.2.3.4" "proximus" "proximus123" 3).1 = ⟨200, true, 0⟩ ∧
    (checkLockout
        (registerAttempt (registerAttempt (registerAttempt [] "1.2.3.4" false 0)
          "1.2.3.4" false 1) "1.2.3.4" false 2) "1.2.3.4" 3).1.locked = true := by
  refine ⟨?_, by decide, by decide⟩
  intro l ip now
  exact (routeInv_runLogins [] routeInv_nil l).checkLockout_not_locked ip now

/-- C5: an entry whose `locked_until` has elapsed is reported unlocked and
evicted by `checkLockout`; a single subsequent failed login attempt yields
401 with the counter restarted at one failure (`{attempts: 1, until: 0}`),
and the identity is not locked at any later time. -/
theorem C5_expired_lock_unlocks_and_counter_restarts
    (m : LockMap) (ip u p : String) (e : LockEntry) (now now' : Nat)
    (hget : m.get ip = some e) (hexp : e.untilMs ≤ now)
    (hbad : ¬ (u = "proximus" ∧ p = "proximus123")) :
    (checkLockout m ip now).1.locked = false ∧
    ((checkLockout m ip now).2).get ip = none ∧
    (loginRoute m ip u p now).1.status = 401 ∧
    ((loginRoute m ip u p now).2).get ip = some ⟨1, 0⟩ ∧
    (checkLockout (loginRoute m ip u p now).2 ip now').1.locked = false := by
  have hc := checkLockout_expired hget hexp
  have h1 : (checkLockout m ip now).1.locked = false := by rw [hc]
  have h2 : ((checkLockout m ip now).2).get ip = none := by
    rw [hc]
    simp [LockMap.get_del]
  have hroute := loginRoute_fail m ip u p now h1 hbad
  have hm2 : (loginRoute m ip u p now).2 = ((checkLockout m ip now).2).set ip ⟨1, 0⟩ := by
    rw [hroute]
    exact registerAttempt_fail_fresh now h2
  have hgot : ((loginRoute m ip u p now).2).get ip = some ⟨1, 0⟩ := by
    rw [hm2, LockMap.get_set, if_pos rfl]
  refine ⟨h1, h2, by rw [hroute], hgot, ?_⟩
  rw [checkLockout_expired hgot (Nat.zero_le _)]

/-- Witness for C5 at a concrete expired-lock state. -/
theorem C5_expired_lock_unlocks_and_counter_restarts_witness :
    (checkLockout [("a", ⟨0, 5⟩)] "a" 10).1.locked = false ∧
    ((checkLockout [("a", ⟨0, 5⟩)] "a" 10).2).get "a" = none ∧
    (loginRoute [("a", ⟨0, 5⟩)] "a" "u" "p" 10).1.status = 401 ∧
    ((loginRoute [("a", ⟨0, 5⟩)] "a" "u" "p" 10).2).get "a" = some ⟨1, 0⟩ ∧
    (checkLockout (loginRoute [("a", ⟨0, 5⟩)] "a" "u" "p" 10).2 "a" 700000).1.locked = false :=
  C5_expired_lock_unlocks_and_counter_restarts [("a", ⟨0, 5⟩)] "a" "u" "p" ⟨0, 5⟩ 10 700000
    (by decide) (by decide) (by decide)

/-- C6: a successful `registerAttempt` removes the identity's entry whatever
the prior state; and the sequence "2 failed logins, 1 successful login,
2 failed logins" leaves the identity with a single counted failure and not
locked, for every prior tracker state (the hypothesis says the successful
login was actually reachable, i.e. the identity was not locked at that
moment). -/
theorem C6_success_clears_failure_history
    (m : LockMap) (ip u p : String) (t1 t2 t3 t4 t5 t6 : Nat)
    (hbad : ¬ (u = "proximus" ∧ p = "proximus123"))
    (hnl : (checkLockout (runLogins m [⟨ip, u, p, t1⟩, ⟨ip, u, p, t2⟩]) ip t3).1.locked = false) :
    (∀ (m0 : LockMap) (now : Nat), registerAttempt m0 ip true now = m0.del ip) ∧
    (loginRoute (runLogins m [⟨ip, u, p, t1⟩, ⟨ip, u, p, t2⟩])
        ip "proximus" "proximus123" t3).1.status = 200 ∧
    ((loginRoute (runLogins m [⟨ip, u, p, t1⟩, ⟨ip, u, p, t2⟩])
        ip "proximus" "proximus123" t3).2).get ip = none ∧
    (runLogins m [⟨ip, u, p, t1⟩, ⟨ip, u, p, t2⟩, ⟨ip, "proximus", "proximus123", t3⟩,
        ⟨ip, u, p, t4⟩, ⟨ip, u, p, t5⟩]).get ip = some ⟨1, 0⟩ ∧
    (checkLockout (runLogins m [⟨ip, u, p, t1⟩, ⟨ip, u, p, t2⟩,
        ⟨ip, "proximus", "proximus123", t3⟩, ⟨ip, u, p, t4⟩, ⟨ip, u, p, t5⟩]) ip t6).1.locked
      = false := by
  have hsplit : runLogins m [⟨ip, u, p, t1⟩, ⟨ip, u, p, t2⟩,
      ⟨ip, "proximus", "proximus123", t3⟩, ⟨ip, u, p, t4⟩, ⟨ip, u, p, t5⟩] =
      runLogins (runLogins m [⟨ip, u, p, t1⟩, ⟨ip, u, p, t2⟩])
        [⟨ip, "proximus", "proximus123", t3⟩, ⟨ip, u, p, t4⟩, ⟨ip, u, p, t5⟩] :=
    runLogins_append m [⟨ip, u, p, t1⟩, ⟨ip, u, p, t2⟩] _
  have hs := loginRoute_success (runLogins m [⟨ip, u, p, t1⟩, ⟨ip, u, p, t2⟩]) ip t3 hnl
  have hm3 : ((loginRoute (runLogins m [⟨ip, u, p, t1⟩, ⟨ip, u, p, t2⟩])
      ip "proximus" "proximus123" t3).2).get ip = none := by
    rw [hs]
    simp [LockMap.get_del]
  have hstep4 := loginRoute_fail (loginRoute (runLogins m [⟨ip, u, p, t1⟩, ⟨ip, u, p, t2⟩])
      ip "proximus" "proximus123" t3).2 ip u p t4
    (by rw [checkLockout_get_none t4 hm3]) hbad
  have hm4 : ((loginRoute (loginRoute (runLogins m [⟨ip, u, p, t1⟩, ⟨ip, u, p, t2⟩])
      ip "proximus" "proximus123" t3).2 ip u p t4).2).get ip = some ⟨1, 0⟩ := by
    rw [hstep4]
    rw [checkLockout_get_none t4 hm3]
    rw [registerAttempt_fail_fresh t4 hm3, LockMap.get_set, if_pos rfl]
  have hstep5 := loginRoute_fail (loginRoute (loginRoute
      (runLogins m [⟨ip, u, p, t1⟩, ⟨ip, u, p, t2⟩])
      ip "proximus" "proximus123" t3).2 ip u p t4).2 ip u p t5
    (by rw [checkLockout_expired hm4 (Nat.zero_le _)]) hbad
  have hm5 : ((loginRoute (loginRoute (loginRoute
      (runLogins m [⟨ip, u, p, t1⟩, ⟨ip, u, p, t2⟩])
      ip "proximus" "proximus123" t3).2 ip u p t4).2 ip u p t5).2).get ip = some ⟨1, 0⟩ := by
    rw [hstep5]
    rw [checkLockout_expired hm4 (Nat.zero_le _)]
    have : ((loginRoute (loginRoute (runLogins m [⟨ip, u, p, t1⟩, ⟨ip, u, p, t2⟩])
        ip "proximus" "proximus123" t3).2 ip u p t4).2.del ip).get ip = none := by
      simp [LockMap.get_del]
    rw [registerAttempt_fail_fresh t5 this, LockMap.get_set, if_pos rfl]
  have hrun : (runLogins m [⟨ip, u, p, t1⟩, ⟨ip, u, p, t2⟩,
      ⟨ip, "proximus", "proximus123", t3⟩, ⟨ip, u, p, t4⟩, ⟨ip, u, p, t5⟩]).get ip
      = some ⟨1, 0⟩ := by
    rw [hsplit]
    show ((loginRoute (loginRoute (loginRoute
      (runLogins m [⟨ip, u, p, t1⟩, ⟨ip, u, p, t2⟩])
      ip "proximus" "proximus123" t3).2 ip u p t4).2 ip u p t5).2).get ip = some ⟨1, 0⟩
    exact hm5
  refine ⟨fun m0 now => registerAttempt_success m0 ip now, by rw [hs], hm3, hrun, ?_⟩
  rw [checkLockout_expired hrun (Nat.zero_le _)]

/-- Witness for C6: empty prior state, times 0..5. -/
theorem C6_success_clears_failure_history_witness :
    registerAttempt [("a", ⟨2, 999⟩)] "a" true 5 = LockMap.del [("a", ⟨2, 999⟩)] "a" ∧
    (loginRoute (runLogins [] [⟨"a", "u", "p", 0⟩, ⟨"a", "u", "p", 1⟩])
        "a" "proximus" "proximus123" 2).1.status = 200 ∧
    ((loginRoute (runLogins [] [⟨"a", "u", "p", 0⟩, ⟨"a", "u", "p", 1⟩])
        "a" "proximus" "proximus123" 2).2).get "a" = none ∧
    (runLogins [] [⟨"a", "u", "p", 0⟩, ⟨"a", "u", "p", 1⟩, ⟨"a", "proximus", "proximus123", 2⟩,
        ⟨"a", "u", "p", 3⟩, ⟨"a", "u", "p", 4⟩]).get "a" = some ⟨1, 0⟩ ∧
    (checkLockout (runLogins [] [⟨"a", "u", "p", 0⟩, ⟨"a", "u", "p", 1⟩,
        ⟨"a", "proximus", "proximus123", 2⟩, ⟨"a", "u", "p", 3⟩, ⟨"a", "u", "p", 4⟩])
        "a" 5).1.locked = false := by
  obtain ⟨ha, hb, hc, hd, he⟩ :=
    C6_success_clears_failure_history [] "a" "u" "p" 0 1 2 3 4 5 (by decide) (by decide)
  exact ⟨ha [("a", ⟨2, 999⟩)] 5, hb, hc, hd, he⟩

/-- C9: every entry stored in a lockout map reachable through `/api/login`
traffic from the empty map satisfies `attempts < MAX_ATTEMPTS`, and an entry
whose `locked_until` lies in the future has `attempts = 0` (the reachable
states are in fact stronger: `attempts ≤ 1` and `until = 0`). -/
theorem C9_lockout_map_invariant (l : List LoginAttempt) (ip : String)
    (e : LockEntry) (h : (runLogins [] l).get ip = some e) :
    e.attempts < MAX_ATTEMPTS ∧ ∀ now : Nat, now < e.untilMs → e.attempts = 0 := by
  have he := routeInv_runLogins [] routeInv_nil l ip e h
  refine ⟨?_, fun now hn => ?_⟩
  · have : MAX_ATTEMPTS = 3 := rfl
    omega
  · omega

/-- Witness for C9 after a single failed attempt. -/
theorem C9_lockout_map_invariant_witness :
    (runLogins [] [⟨"a", "u", "p", 0⟩]).get "a" = some ⟨1, 0⟩ ∧
    (⟨1, 0⟩ : LockEntry).attempts < MAX_ATTEMPTS :=
  ⟨by decide, (C9_lockout_map_invariant [⟨"a", "u", "p", 0⟩] "a" ⟨1, 0⟩ (by decide)).1⟩

/-- C2 counterexample: when the upstream answers with a non-success status
(here 404) whose body still parses as JSON, part_000's remote handler passes
it through as a 200 success `{source:'proximus-mcp', data}` — it is not a
502 BridgeError, because the handler never consults `resp.ok`/`resp.status`. -/
theorem C2_nonsuccess_status_passed_through :
    mcpQueryRemote (FetchOutcome.response ⟨false, 404, some (7 : Nat)⟩) "invalid json"
      = BridgeResult.ok "proximus-mcp" 7 ∧
    ∀ st er de,
      mcpQueryRemote (FetchOutcome.response ⟨false, 404, some (7 : Nat)⟩) "invalid json"
        ≠ BridgeResult.err st er de :=
  ⟨rfl, fun st er de h => by simp [mcpQueryRemote] at h⟩

/-- C2 amended: the bridge forwards its payload to `MCP_URL` with a bearer
credential exactly when `MCP_API_KEY` is configured; a transport failure or
a body that fails JSON parsing yields 502 `{error:'MCP bridge failed',
details}`; but in part_000 any response whose body parses as JSON —
regardless of upstream status — is passed through as a 200 success under
`source:'proximus-mcp'`.  (server.js's variant of the route does turn a
non-success upstream status into a 502 carrying the stringified body.) -/
theorem C2_bridge_error_handling {α : Type} (mcpUrl : String) (apiKey : Option String)
    (body : α) (r : UpstreamResponse α) (r2 : UpstreamResponse2 α)
    (msg parseErrMsg : String) (sj : Option α → String) (stx : String → String) :
    (buildBridgeRequest mcpUrl apiKey body).url = mcpUrl ∧
    (buildBridgeRequest mcpUrl apiKey body).body = body ∧
    (buildBridgeRequest mcpUrl apiKey body).authorization
      = apiKey.map (fun k => "Bearer " ++ k) ∧
    mcpQueryRemote (α := α) (.thrown msg) parseErrMsg
      = .err 502 "MCP bridge failed" msg ∧
    (∀ d, r.jsonBody = some d →
      mcpQueryRemote (.response r) parseErrMsg = .ok "proximus-mcp" d) ∧
    (r.jsonBody = none →
      mcpQueryRemote (.response r) parseErrMsg
        = .err 502 "MCP bridge failed" parseErrMsg) ∧
    mcpQueryRemoteV2 (α := α) (.thrown msg) sj stx parseErrMsg
      = .err 502 "MCP bridge failed" msg ∧
    (r2.ok = false →
      mcpQueryRemoteV2 (.response r2) sj stx parseErrMsg
        = .err 502 "MCP bridge failed"
            (if r2.contentTypeJson then sj r2.jsonBody else stx r2.textBody)) := by
  refine ⟨rfl, rfl, rfl, rfl, ?_, ?_, rfl, ?_⟩
  · intro d hd
    simp [mcpQueryRemote, hd]
  · intro hd
    simp [mcpQueryRemote, hd]
  · intro hok
    simp [mcpQueryRemoteV2, hok]

/-- Witness for C2's amended theorem at concrete inputs. -/
theorem C2_bridge_error_handling_witness :
    (buildBridgeRequest "https://mcp.example/query" (some "sk-1") (5 : Nat)).authorization
      = some "Bearer sk-1" ∧
    mcpQueryRemote (α := Nat) (.thrown "ECONNREFUSED") "invalid json"
      = .err 502 "MCP bridge failed" "ECONNREFUSED" ∧
    mcpQueryRemote (α := Nat) (.response ⟨false, 404, some 5⟩) "invalid json"
      = .ok "proximus-mcp" 5 ∧
    mcpQueryRemote (α := Nat) (.response ⟨true, 200, none⟩) "invalid json"
      = .err 502 "MCP bridge failed" "invalid json" ∧
    mcpQueryRemoteV2 (α := Nat) (.response ⟨false, 404, true, some 5, "body"⟩)
        (fun _ => "{}") (fun t => t) "invalid json"
      = .err 502 "MCP bridge failed" "{}" := by
  obtain ⟨-, -, hauth, hthrown, hjson, -, -, -⟩ :=
    C2_bridge_error_handling "https://mcp.example/query" (some "sk-1") (5 : Nat)
      (⟨false, 404, some 5⟩ : UpstreamResponse Nat)
      (⟨false, 404, true, some 5, "body"⟩ : UpstreamResponse2 Nat)
      "ECONNREFUSED" "invalid json" (fun _ => "{}") (fun t => t)
  obtain ⟨-, -, -, -, -, hnone, -, hnok⟩ :=
    C2_bridge_error_handling "https://mcp.example/query" (some "sk-1") (5 : Nat)
      (⟨true, 200, none⟩ : UpstreamResponse Nat)
      (⟨false, 404, true, some 5, "body"⟩ : UpstreamResponse2 Nat)
      "ECONNREFUSED" "invalid json" (fun _ => "{}") (fun t => t)
  exact ⟨hauth, hthrown, hjson 5 rfl, hnone rfl, hnok rfl⟩

/-- C7: each protected route called without an authenticated session is
answered 401 `{error:'Unauthorized'}` with no body and no business-logic
effects — `requireAuth` never invokes the handler. -/
theorem C7_unauthenticated_rejected_before_logic (data : List SmsRecord)
    (country status limit resource fC fS : Option String) :
    apiSmsRoute none data country status limit = ⟨401, none, some "Unauthorized", []⟩ ∧
    apiSmsStreamRoute none = ⟨401, none, some "Unauthorized", []⟩ ∧
    mcpQueryRoute none data resource fC fS = ⟨401, none, some "Unauthorized", []⟩ :=
  ⟨rfl, rfl, rfl⟩

/-- C8: in the sequential event-loop trace of one stream connection, no
frame is written by any event after the transport's close event (the close
handler's `clearInterval` takes effect at once, so in particular within one
1.5 s tick), the timer is cleared in the final state, and each processed
tick writes at most one frame (one `setInterval` per connection, so at most
one outstanding tick). -/
theorem C8_close_cancels_stream (pre post : List StreamEvent) :
    (streamRun openStream (pre ++ StreamEvent.closed :: post)).2
      = (streamRun openStream pre).2 ∧
    (streamRun openStream (pre ++ StreamEvent.closed :: post)).1.timerActive = false ∧
    ∀ (s : StreamConn) (e : StreamEvent), (streamStep s e).2 ≤ 1 := by
  have hclosed : ∀ s : StreamConn,
      streamRun s (StreamEvent.closed :: post) = (⟨false⟩, 0) := by
    intro s
    simp [streamRun, streamStep, streamRun_inactive]
  refine ⟨?_, ?_, ?_⟩
  · rw [streamRun_append, hclosed]
    simp
  · rw [streamRun_append, hclosed]
  · intro s e
    cases e <;> simp [streamStep]
    split <;> simp

/-- C3: with no external endpoint, `POST /api/mcp/query {resource:'kpis',
filters:{}}` aggregates over the whole dataset: the three status counts sum
to at most `total`, `total` is the dataset size, and `avgLatency` (exact
rational mean, `sum / Math.max(1, total)`) lies in `[100, 3100)` when
`total > 0` and equals `0` when `total = 0` — no division by zero. -/
theorem C3_local_kpis_bounds (data : List SmsRecord)
    (h : ∀ r ∈ data, GeneratedRecord r) :
    mcpQueryLocal data (some "kpis") none none
      = ⟨"mock-mcp", .kpis (computeKpis data)⟩ ∧
    (computeKpis data).delivered + (computeKpis data).failed + (computeKpis data).blocked
      ≤ (computeKpis data).total ∧
    (computeKpis data).total = data.length ∧
    (0 < (computeKpis data).total →
      100 ≤ (computeKpis data).avgLatency ∧ (computeKpis data).avgLatency < 3100) ∧
    ((computeKpis data).total = 0 → (computeKpis data).avgLatency = 0) := by
  refine ⟨rfl, ?_, rfl, ?_, ?_⟩
  · exact filter_triple_length_le data _ _ _
      (by intro x hx1 hx2
          rw [beq_iff_eq] at hx1 hx2
          rw [hx1] at hx2
          exact absurd hx2 (by decide))
      (by intro x hx1 hx2
          rw [beq_iff_eq] at hx1 hx2
          rw [hx1] at hx2
          exact absurd hx2 (by decide))
      (by intro x hx1 hx2
          rw [beq_iff_eq] at hx1 hx2
          rw [hx1] at hx2
          exact absurd hx2 (by decide))
  · intro hpos
    have hn : 0 < data.length := hpos
    have hmax : max 1 data.length = data.length := by omega
    have hlow : ∀ x ∈ data.map (fun r => r.latency_ms), 100 ≤ x := by
      intro x hx
      obtain ⟨r, hr, rfl⟩ := List.mem_map.mp hx
      exact (h r hr).2.1
    have hhigh : ∀ x ∈ data.map (fun r => r.latency_ms), x ≤ 3099 := by
      intro x hx
      obtain ⟨r, hr, rfl⟩ := List.mem_map.mp hx
      have := (h r hr).2.2
      omega
    have h1 : 100 * data.length ≤ (data.map (fun r => r.latency_ms)).sum := by
      have := list_mul_le_sum (data.map (fun r => r.latency_ms)) 100 hlow
      simpa using this
    have h2 : (data.map (fun r => r.latency_ms)).sum ≤ 3099 * data.length := by
      have := list_sum_le_mul (data.map (fun r => r.latency_ms)) 3099 hhigh
      simpa using this
    have hq : (0 : ℚ) < (data.length : ℚ) := by exact_mod_cast hn
    have havg : (computeKpis data).avgLatency
        = (((data.map (fun r => r.latency_ms)).sum : Nat) : ℚ) / ((data.length : Nat) : ℚ) := by
      show (((data.map (fun r => r.latency_ms)).sum : Nat) : ℚ)
          / (((max 1 data.length : Nat)) : ℚ)
        = (((data.map (fun r => r.latency_ms)).sum : Nat) : ℚ) / ((data.length : Nat) : ℚ)
      rw [hmax]
    constructor
    · rw [havg, le_div_iff₀ hq]
      exact_mod_cast h1
    · rw [havg, div_lt_iff₀ hq]
      have h3 : (data.map (fun r => r.latency_ms)).sum < 3100 * data.length := by omega
      exact_mod_cast h3
  · intro hzero
    have hdata : data = [] := List.length_eq_zero.mp hzero
    subst hdata
    show ((0 : Nat) : ℚ) / (((max 1 (0 : Nat) : Nat)) : ℚ) = 0
    norm_num

/-- Witness for C3 on a one-record dataset. -/
theorem C3_local_kpis_bounds_witness :
    mcpQueryLocal [⟨1, "US", "c", "DELIVERED", 200, "m", 0⟩] (some "kpis") none none
      = (⟨"mock-mcp", MockData.kpis (computeKpis [⟨1, "US", "c", "DELIVERED", 200, "m", 0⟩])⟩
          : MockResponse) ∧
    (computeKpis [⟨1, "US", "c", "DELIVERED", 200, "m", 0⟩]).delivered +
      (computeKpis [⟨1, "US", "c", "DELIVERED", 200, "m", 0⟩]).failed +
      (computeKpis [⟨1, "US", "c", "DELIVERED", 200, "m", 0⟩]).blocked
      ≤ (computeKpis [⟨1, "US", "c", "DELIVERED", 200, "m", 0⟩]).total ∧
    (computeKpis [⟨1, "US", "c", "DELIVERED", 200, "m", 0⟩]).total
      = ([⟨1, "US", "c", "DELIVERED", 200, "m", 0⟩] : List SmsRecord).length ∧
    (0 < (computeKpis [⟨1, "US", "c", "DELIVERED", 200, "m", 0⟩]).total →
      100 ≤ (computeKpis [⟨1, "US", "c", "DELIVERED", 200, "m", 0⟩]).avgLatency ∧
      (computeKpis [⟨1, "US", "c", "DELIVERED", 200, "m", 0⟩]).avgLatency < 3100) ∧
    ((computeKpis [⟨1, "US", "c", "DELIVERED", 200, "m", 0⟩]).total = 0 →
      (computeKpis [⟨1, "US", "c", "DELIVERED", 200, "m", 0⟩]).avgLatency = 0) :=
  C3_local_kpis_bounds [⟨1, "US", "c", "DELIVERED", 200, "m", 0⟩] (by decide)

/-- C4: `GET /api/sms?country=us&limit=5` yields at most 5 records, each
with `country = "US"` (the lowercase query value is uppercased and compared
with the stored form); a parsed limit above the maximum 500 is clamped to
500; a non-numeric or absent limit falls back to the default 100. -/
theorem C4_sms_country_filter_and_limit (data : List SmsRecord) :
    (apiSms data (some "us") none (some "5")).length ≤ 5 ∧
    (∀ r ∈ apiSms data (some "us") none (some "5"), r.country = "US") ∧
    (∀ (s : String) (n : Int), parseIntJS s = some n → 500 < n →
      effectiveLimit (some s) 500 = 500) ∧
    (∀ s : String, parseIntJS s = none → effectiveLimit (some s) 500 = 100) ∧
    effectiveLimit none 500 = 100 := by
  have heff : effectiveLimit (some "5") 500 = 5 := by decide
  have hslice : apiSms data (some "us") none (some "5")
      = (filterRecords data (some "us") none).take 5 := by
    show jsSliceTo (filterRecords data (some "us") none) (effectiveLimit (some "5") 500) = _
    rw [heff]
    simp [jsSliceTo]
  have hfil : filterRecords data (some "us") none
      = data.filter (fun r => r.country == jsToUpper "us") := rfl
  have hup : jsToUpper "us" = "US" := by decide
  refine ⟨?_, ?_, ?_, ?_, by decide⟩
  · rw [hslice]
    exact List.length_take_le 5 (filterRecords data (some "us") none)
  · intro r hr
    rw [hslice, hfil] at hr
    have hr' := List.mem_of_mem_take hr
    have hc := (List.mem_filter.mp hr').2
    rw [beq_iff_eq] at hc
    rw [hc, hup]
  · intro s n hp hn
    have hne : ¬ n = 0 := by omega
    show min (limitOrDefault (some s)) 500 = 500
    have hld : limitOrDefault (some s) = n := by
      simp [limitOrDefault, hp, hne]
    rw [hld]
    exact min_eq_right (by omega)
  · intro s hp
    show min (limitOrDefault (some s)) 500 = 100
    have hld : limitOrDefault (some s) = 100 := by
      simp [limitOrDefault, hp]
    rw [hld]
    exact min_eq_left (by norm_num)

/-- Witness for C4: limit 9999 is clamped to 500, limit "abc" defaults to
100, and the country=us query on a two-record dataset. -/
theorem C4_sms_country_filter_and_limit_witness :
    parseIntJS "9999" = some 9999 ∧ (500 : Int) < 9999 ∧
    effectiveLimit (some "9999") 500 = 500 ∧
    parseIntJS "abc" = none ∧ effectiveLimit (some "abc") 500 = 100 ∧
    (apiSms [⟨1, "US", "c", "DELIVERED", 200, "m", 0⟩, ⟨2, "GB", "c", "FAILED", 300, "m", 0⟩]
      (some "us") none (some "5")).length ≤ 5 :=
  ⟨by decide, by decide,
    (C4_sms_country_filter_and_limit []).2.2.1 "9999" 9999 (by decide) (by decide),
    by decide,
    (C4_sms_country_filter_and_limit []).2.2.2.1 "abc" (by decide),
    (C4_sms_country_filter_and_limit
      [⟨1, "US", "c", "DELIVERED", 200, "m", 0⟩, ⟨2, "GB", "c", "FAILED", 300, "m", 0⟩]).1⟩

/-- C10: `limit=0` is falsy in `parseInt(limit,10) || 100`, so the route
returns the default first 100 records; a negative limit survives `Math.min`
unchanged and is handed to `slice(0, n)`, which drops the last `|n|`
records instead of clamping. -/
theorem C10_zero_and_negative_limit (data : List SmsRecord) :
    apiSms data none none (some "0") = data.take 100 ∧
    apiSms data none none (some "-5") = data.take (data.length - 5) ∧
    apiData data none none (some "0") = data.take 100 ∧
    apiData data none none (some "-5") = data.take (data.length - 5) := by
  have h0 : effectiveLimit (some "0") 500 = 100 := by decide
  have h0' : effectiveLimit (some "0") 1000 = 100 := by decide
  have hm : effectiveLimit (some "-5") 500 = -5 := by decide
  have hm' : effectiveLimit (some "-5") 1000 = -5 := by decide
  have hneg : jsSliceTo data (-5 : Int) = data.take (data.length - 5) := by
    simp only [jsSliceTo]
    rw [if_pos (by omega : (-5 : Int) < 0)]
    congr 1
    omega
  have hpos : jsSliceTo data (100 : Int) = data.take 100 := by
    simp only [jsSliceTo]
    rw [if_neg (by omega : ¬ (100 : Int) < 0)]
    rfl
  refine ⟨?_, ?_, ?_, ?_⟩
  · show jsSliceTo (filterRecords data none none) (effectiveLimit (some "0") 500) = _
    rw [h0]
    exact hpos
  · show jsSliceTo (filterRecords data none none) (effectiveLimit (some "-5") 500) = _
    rw [hm]
    exact hneg
  · show jsSliceTo (filterRecords data none none) (effectiveLimit (some "0") 1000) = _
    rw [h0']
    exact hpos
  · show jsSliceTo (filterRecords data none none) (effectiveLimit (some "-5") 1000) = _
    rw [hm']
    exact hneg

end Proximus
